import Mathlib

set_option maxRecDepth 10000

/-! Shallow embedding of the reply-correlation and balance-reconciliation
engine of the repository.  Two server variants exist in the source tree:
the Google-Sheets-backed polling server (`src/unnamed/part_000`, namespace
`Poll` below) and the Supabase-backed webhook server
(`src/server/server.js`, namespace `Hook` below).  JavaScript strings are
`String`, JavaScript numbers that can be `NaN` are `Option ℚ` with `none`
standing for `NaN`, and fallible calls are modelled with `Option`. -/

/-- JavaScript whitespace class `\s` (the code points matched by the regex
class and by `String.prototype.trim`). -/
def isJsWs (c : Char) : Bool :=
  c = ' ' || c = '\t' || c = '\n' || c = '\x0d' || c.toNat = 11 || c.toNat = 12 ||
  c.toNat = 0xa0 || c.toNat = 0x1680 ||
  (0x2000 ≤ c.toNat && c.toNat ≤ 0x200a) ||
  c.toNat = 0x2028 || c.toNat = 0x2029 || c.toNat = 0x202f ||
  c.toNat = 0x205f || c.toNat = 0x3000 || c.toNat = 0xfeff

/-- Regex digit class `\d`, i.e. `[0-9]`. -/
def isDigitChar (c : Char) : Bool := '0' ≤ c && c ≤ '9'

/-- The amount-token class `[0-9.,]` used by both servers' amount regexes. -/
def isAmountChar (c : Char) : Bool := isDigitChar c || c = '.' || c = ','

/-- The separator class `[:\s]` of the `part_000` amount regex. -/
def isColonWs (c : Char) : Bool := c = ':' || isJsWs c

/-- The separator class `[:\s\-\(\)]` of the `part_000` personal-number regex. -/
def isPersonalSep (c : Char) : Bool :=
  c = ':' || isJsWs c || c = '-' || c = '(' || c = ')'

/-- JavaScript `String.prototype.trim`. -/
def jsTrim (s : String) : String :=
  String.mk (((s.data.dropWhile isJsWs).reverse.dropWhile isJsWs).reverse)

/-- ASCII lower-casing; models the effect of the `/i` regex flag on the
keyword patterns (which contain only Arabic letters and ASCII letters). -/
def asciiLower (s : String) : String :=
  String.mk (s.data.map (fun c => if 'A' ≤ c && c ≤ 'Z' then Char.ofNat (c.toNat + 32) else c))

/-- Anchored prefix test, models `/^(...)/` on one alternative. -/
def strStartsWith (s pre : String) : Bool := pre.data.isPrefixOf s.data

/-- First maximal run of characters satisfying `cls`; models the first match
of a regex of the form `/[cls]+/` scanned left to right. -/
def firstRun (cls : Char → Bool) : List Char → Option (List Char)
  | [] => none
  | c :: cs => if cls c then some (List.takeWhile cls (c :: cs)) else firstRun cls cs

/-- Leftmost match of a regex of the form `marker [sep]* ([tok]+)`: scan for
an occurrence of `marker` that is followed (after a maximal run of `sep`
characters) by a non-empty run of `tok` characters, and return that run.
`sep` and `tok` classes are disjoint in both uses, so the greedy scan is
exactly the backtracking regex semantics. -/
def findAfterMarker (marker : List Char) (sep tok : Char → Bool) : List Char → Option (List Char)
  | [] => none
  | c :: cs =>
    if marker.isPrefixOf (c :: cs) then
      let rest := (c :: cs).drop marker.length
      let t := (rest.dropWhile sep).takeWhile tok
      if t.isEmpty then findAfterMarker marker sep tok cs else some t
    else findAfterMarker marker sep tok cs

/-- `replace(/,/g, '.')` on a token. -/
def commasToDots (l : List Char) : List Char :=
  l.map (fun c => if c = ',' then '.' else c)

/-- Numeric value of a digit string. -/
def digitsVal (l : List Char) : Nat :=
  l.foldl (fun a c => a * 10 + (c.toNat - 48)) 0

/-- JavaScript `Number(s)` restricted to strings over `[0-9.]` (the shape
produced by stripping `[,\s]` from an amount token): the empty string is `0`,
one optional decimal point is allowed (`"."` alone is `NaN`), two or more
points give `NaN`. -/
def jsNumberDD (l : List Char) : Option ℚ :=
  let dots := l.countP (fun c => c = '.')
  if dots = 0 then some ((digitsVal l : ℚ))
  else if dots = 1 then
    let intPart := l.takeWhile (fun c => c ≠ '.')
    let fracPart := (l.dropWhile (fun c => c ≠ '.')).drop 1
    if intPart.isEmpty && fracPart.isEmpty then none
    else some ((digitsVal intPart : ℚ) + (digitsVal fracPart : ℚ) / (10 : ℚ) ^ fracPart.length)
  else none

/-- JavaScript `parseFloat` restricted to strings over `[0-9.]`: parses the
longest prefix of the form `digits* ['.' digits*]` containing at least one
digit, and is `NaN` when there is none. -/
def parseFloatDD (l : List Char) : Option ℚ :=
  let d1 := l.takeWhile isDigitChar
  let r1 := l.drop d1.length
  match r1 with
  | '.' :: r2 =>
    let d2 := r2.takeWhile isDigitChar
    if d1.isEmpty && d2.isEmpty then none
    else some ((digitsVal d1 : ℚ) + (digitsVal d2 : ℚ) / (10 : ℚ) ^ d2.length)
  | _ => if d1.isEmpty then none else some ((digitsVal d1 : ℚ))

/-- JavaScript `x || 0` on a number: `NaN` (and `0`) become `0`. -/
def jsOr0 : Option ℚ → ℚ
  | none => 0
  | some q => q

/-- JavaScript addition of a plain number and a possibly-`NaN` number:
`NaN` propagates. -/
def jsAdd (b : ℚ) : Option ℚ → Option ℚ
  | none => none
  | some q => some (b + q)

/-- JavaScript `a || b` on strings where the only falsy string is `""`. -/
def jsOrStr (a b : String) : String :=
  if a = "" then (if b = "" then a else b) else a

/-- Split a reversed digit list into groups of three (for the `'en-US'`
thousands grouping of `toLocaleString`). -/
def chunk3 : List Char → List (List Char)
  | [] => []
  | [a] => [[a]]
  | [a, b] => [[a, b]]
  | a :: b :: c :: rest => [a, b, c] :: chunk3 rest

/-- A natural number rendered with `'en-US'` thousands separators. -/
def natGrouped (n : Nat) : String :=
  String.mk ((List.intersperse [','] (chunk3 (toString n).data.reverse)).flatten.reverse)

/-- Fractional digits (truncated to three, trailing zeros stripped) for the
locale rendering of a non-integral value; never observed by any theorem. -/
def fracStr3 (f : ℚ) : String :=
  let m := (f * 1000).floor.toNat
  let padded := List.replicate (3 - (toString m).length) '0' ++ (toString m).data
  String.mk ((padded.reverse.dropWhile (fun c => c = '0')).reverse)

/-- `q.toLocaleString('en-US')` for a non-negative rational. -/
def qLocaleNN (q : ℚ) : String :=
  let i := q.floor.toNat
  let f := q - (i : ℚ)
  if f = 0 then natGrouped i else natGrouped i ++ "." ++ fracStr3 f

/-- `q.toLocaleString('en-US')` for a rational. -/
def qLocale (q : ℚ) : String :=
  if q < 0 then "-" ++ qLocaleNN (-q) else qLocaleNN q

/-- `x.toLocaleString('en-US')` for a possibly-`NaN` number. -/
def toLocaleEnOpt : Option ℚ → String
  | none => "NaN"
  | some q => qLocale q

/-- Decimal digits of a fraction in `[0,1)`, up to `fuel` places. -/
def decDigitsGo : Nat → ℚ → List Char
  | 0, _ => []
  | fuel + 1, f =>
    if f = 0 then []
    else
      let d := (f * 10).floor.toNat
      Char.ofNat (48 + d) :: decDigitsGo fuel (f * 10 - (d : ℚ))

/-- JavaScript default number-to-string for a non-negative rational. -/
def qToStringNN (q : ℚ) : String :=
  let i := q.floor.toNat
  let f := q - (i : ℚ)
  if f = 0 then toString i else toString i ++ "." ++ String.mk (decDigitsGo 20 f)

/-- JavaScript default number-to-string (template-literal interpolation). -/
def qToString (q : ℚ) : String :=
  if q < 0 then "-" ++ qToStringNN (-q) else qToStringNN q

/-- Mutation of the first array element matched by `Array.prototype.find`:
JavaScript `find` returns a reference, so mutating it rewrites exactly the
first matching element in place. -/
def updateFirst (p : α → Bool) (f : α → α) : List α → List α
  | [] => []
  | x :: xs => if p x then f x :: xs else x :: updateFirst p f xs

/-- A SQL `UPDATE ... WHERE` (Supabase `.update(..).eq(..)`): every matching
row is rewritten. -/
def updateAll (p : α → Bool) (f : α → α) (l : List α) : List α :=
  l.map (fun x => if p x then f x else x)

/-- An inbound Telegram message: its text and, when it is a reply, the
message id of the message it replies to. -/
structure TgMessage where
  text : String
  replyToMessageId : Option Int
deriving DecidableEq

/-- A Telegram `getUpdates` entry: the update id (the polling cursor value)
and the optional message payload. -/
structure TgUpdate where
  updateId : Nat
  message : Option TgMessage
deriving DecidableEq

namespace Poll

/-- Profile record of `part_000` (`DB.profiles` entries); fields not read or
written by the reconciliation core are omitted. -/
structure Profile where
  personalNumber : String
  name : String
  email : String
  balance : Option ℚ
deriving DecidableEq

/-- Order record of `part_000` (`DB.orders` entries), restricted to the
fields the reply handler reads and writes. -/
structure Order where
  id : Nat
  personalNumber : String
  status : String
  replied : Bool
  telegramMessageId : Option Int
deriving DecidableEq

/-- Charge record of `part_000` (`DB.charges` entries), restricted to the
fields the reply handler reads and writes. -/
structure Charge where
  id : Nat
  personalNumber : String
  amount : Option ℚ
  status : String
  replied : Bool
  telegramMessageId : Option Int
deriving DecidableEq

/-- Notification record of `part_000` (`DB.notifications` entries). -/
structure Notification where
  id : String
  personal : String
  text : String
  read : Bool
  createdAt : Nat
deriving DecidableEq

/-- The in-memory `DB` object of `part_000` (the fields the core touches). -/
structure DB where
  profiles : List Profile
  orders : List Order
  charges : List Charge
  notifications : List Notification
deriving DecidableEq

/-- The reply-target test `o.telegramMessageId && Number(o.telegramMessageId)
=== Number(repliedId)` of lines 401 and 415: a `null` or `0` stored id is
falsy and never matches. -/
def msgIdMatches (tmid : Option Int) (rid : Int) : Bool :=
  match tmid with
  | none => false
  | some m => m ≠ 0 && m = rid

/-- `findProfileByPersonal` of line 174. -/
def findProfileByPersonal (db : DB) (n : String) : Option Profile :=
  db.profiles.find? (fun p => p.personalNumber = n)

/-- The acceptance keyword test `/^(تم|مقبول|accept)/i` of lines 403 and 445. -/
def acceptKeyword (t : String) : Bool :=
  let l := asciiLower t
  strStartsWith l "تم" || strStartsWith l "مقبول" || strStartsWith l "accept"

/-- The rejection keyword test `/^(رفض|مرفوض|reject)/i` of lines 404 and 446. -/
def rejectKeyword (t : String) : Bool :=
  let l := asciiLower t
  strStartsWith l "رفض" || strStartsWith l "مرفوض" || strStartsWith l "reject"

/-- The amount capture `text.match(/الرصيد[:\s]*([0-9\.,]+)/i)` of line 418. -/
def chargeAmountTok (t : String) : Option (List Char) :=
  findAfterMarker ("الرصيد").data isColonWs isAmountChar t.data

/-- The personal-number capture
`text.match(/الرقم الشخصي[:\s\-\(\)]*([0-9]+)/i)` of line 419. -/
def chargePersonalTok (t : String) : Option (List Char) :=
  findAfterMarker ("الرقم الشخصي").data isPersonalSep isDigitChar t.data

/-- `Number(String(m[1]).replace(/[,\s]+/g, ''))` of line 422. -/
def parseChargeAmount (tok : List Char) : Option ℚ :=
  jsNumberDD (tok.filter (fun c => !(c = ',' || isJsWs c)))

/-- The intent a charge reply is classified into by lines 418-447. -/
inductive Intent where
  | approveWith (amount : Option ℚ) (personal : String)
  | approveNoAmount
  | reject
  | freeText (t : String)
deriving DecidableEq

/-- Classification of a (trimmed) charge-reply text, following the branch
structure of lines 418-447: the credit branch fires exactly when both the
amount marker and the restated personal number match; otherwise the
acceptance keyword, then the rejection keyword, then verbatim free text. -/
def classifyChargeReply (t : String) : Intent :=
  match chargeAmountTok t, chargePersonalTok t with
  | some m, some p => .approveWith (parseChargeAmount m) (String.mk p)
  | _, _ =>
    if acceptKeyword t then .approveNoAmount
    else if rejectKeyword t then .reject
    else .freeText t

/-- The generic Telegram reply handler of `part_000` lines 391-468.
`mirrorOk` is the boolean returned by the (external) Google-Sheets retry
wrapper at line 428; the code only logs a warning when it is `false`, so the
local state never depends on it.  `now` stands for `Date.now()`. -/
def genericBotReplyHandler (mirrorOk : Bool) (now : Nat) (update : TgUpdate) (db : DB) : DB :=
  match update.message with
  | none => db
  | some msg =>
    let text := jsTrim msg.text
    match msg.replyToMessageId with
    | none => db
    | some repliedId =>
      match db.orders.find? (fun o => msgIdMatches o.telegramMessageId repliedId) with
      | some ord =>
        let newStatus :=
          if acceptKeyword text then "تم قبول طلبك"
          else if rejectKeyword text then "تم رفض طلبك"
          else text
        let orders' :=
          updateFirst (fun o => msgIdMatches o.telegramMessageId repliedId)
            (fun o => { o with status := newStatus, replied := true }) db.orders
        let notif : Notification :=
          { id := toString now ++ "-order", personal := ord.personalNumber,
            text := "تحديث حالة الطلب #" ++ toString ord.id ++ ": " ++ newStatus,
            read := false, createdAt := now }
        let db1 := { db with orders := orders' }
        { db1 with notifications := notif :: db1.notifications }
      | none =>
        match db.charges.find? (fun c => msgIdMatches c.telegramMessageId repliedId) with
        | none => db
        | some ch =>
          let statusBranch := fun (newStatus : String) =>
            let charges' :=
              updateFirst (fun c => msgIdMatches c.telegramMessageId repliedId)
                (fun c => { c with status := newStatus, replied := true }) db.charges
            let db1 := { db with charges := charges' }
            match findProfileByPersonal db ch.personalNumber with
            | none => db1
            | some prof =>
              let notif : Notification :=
                { id := toString now ++ "-charge-status", personal := prof.personalNumber,
                  text := "تحديث حالة شحن الرصيد #" ++ toString ch.id ++ ": " ++ newStatus,
                  read := false, createdAt := now }
              { db1 with notifications := notif :: db1.notifications }
          match classifyChargeReply text with
          | .approveWith amount personal =>
            match findProfileByPersonal db personal with
            | none => db
            | some prof =>
              let newBal := jsAdd (jsOr0 prof.balance) amount
              let profiles' :=
                updateFirst (fun p => p.personalNumber = personal)
                  (fun p => { p with balance := newBal }) db.profiles
              let charges' :=
                updateFirst (fun c => msgIdMatches c.telegramMessageId repliedId)
                  (fun c => { c with status := "تم تحويل الرصيد", replied := true }) db.charges
              let notif : Notification :=
                { id := toString now ++ "-balance", personal := prof.personalNumber,
                  text := "تم شحن رصيدك بمبلغ " ++ toLocaleEnOpt amount ++
                          " ل.س. رصيدك الآن: " ++ qLocale (jsOr0 newBal) ++ " ل.س",
                  read := false, createdAt := now }
              let db1 := { db with profiles := profiles' }
              let db2 := { db1 with charges := charges' }
              { db2 with notifications := notif :: db2.notifications }
          | .approveNoAmount => statusBranch "تم شحن الرصيد"
          | .reject => statusBranch "تم رفض الطلب"
          | .freeText t => statusBranch t

/-- A profile row read back from the Google-Sheets mirror
(`getProfileFromSheet`, lines 49-76), restricted to the fields the login
sync reads. -/
structure SheetProfile where
  personalNumber : String
  name : String
  email : String
  balance : Option ℚ
deriving DecidableEq

/-- The mirror-reconciliation step of `POST /api/login`, lines 233-243:
when the sheet row exists the local balance becomes
`Math.max(Number(p.balance || 0), Number(sheetProf.balance || 0))` and empty
name/email fields are filled from the sheet; a missing sheet row leaves the
profile unchanged (the code then re-uploads it, an external effect). -/
def loginSheetSync (p : Profile) (sheetProf : Option SheetProfile) : Profile :=
  match sheetProf with
  | some sp =>
    { p with balance := some (max (jsOr0 p.balance) (jsOr0 sp.balance)),
             name := jsOrStr p.name sp.name,
             email := jsOrStr p.email sp.email }
  | none => p

/-- Outcome of the retry wrapper `updateBalanceInSheet`: the returned
boolean, the list of `sleep` durations performed between attempts, and the
number of attempts made. -/
structure SheetRetryResult where
  ok : Bool
  sleeps : List Nat
  attemptsMade : Nat
deriving DecidableEq

/-- The body of the `for (attempt = 1..3)` loop of lines 117-137: `fail k`
says whether the sheet write throws on attempt `k`; on a failure before the
third attempt the code sleeps `800 * attempt` milliseconds and retries. -/
def updateBalanceGo (fail : Nat → Bool) (attempt : Nat) : Nat → SheetRetryResult
  | 0 => ⟨false, [], 0⟩
  | fuel + 1 =>
    if fail attempt then
      let r := updateBalanceGo fail (attempt + 1) fuel
      ⟨r.ok, (if attempt < 3 then [800 * attempt] else []) ++ r.sleeps, r.attemptsMade + 1⟩
    else ⟨true, [], 1⟩

/-- `updateBalanceInSheet` of lines 115-139: at most 3 attempts, returning
`false` (never throwing) after the third failure. -/
def updateBalanceInSheet (fail : Nat → Bool) : SheetRetryResult :=
  updateBalanceGo fail 1 3

/-- State carried across poll cycles: the in-memory `DB`, the in-memory
cursor `DB.tgOffsets[botToken]` for one bot token, and the cursor value last
persisted by `saveData`. -/
structure PollState where
  db : DB
  offset : Nat
  persistedOffset : Nat
deriving DecidableEq

/-- `try { await handler(u) } catch (e) { console.warn(...) }` of line 385:
a throwing handler (`none`) is caught and the loop continues. -/
def applyCaught (h : TgUpdate → DB → Option DB) (u : TgUpdate) (db : DB) : DB :=
  (h u db).getD db

/-- The `for (const u of updates)` loop of lines 383-386: the cursor is set
to `u.update_id` and then the handler runs with its errors caught. -/
def pollLoop (h : TgUpdate → DB → Option DB) : List TgUpdate → DB × Nat → DB × Nat
  | [], s => s
  | u :: us, (db, _off) => pollLoop h us (applyCaught h u db, u.updateId)

/-- `pollTelegramForBot` of lines 376-389 for one bot token, with the batch
returned by `getUpdates` passed in: runs the update loop and then persists
the whole `DB` (including the advanced cursor) with the trailing
`saveData(DB)` of line 387. -/
def pollTelegramForBot (h : TgUpdate → DB → Option DB) (updates : List TgUpdate)
    (s : PollState) : PollState :=
  let r := pollLoop h updates (s.db, s.offset)
  ⟨r.1, r.2, r.2⟩

end Poll

namespace Hook

/-- Profile row of the Supabase `profiles` table (`server.js`), restricted
to the fields the webhook reads and writes. -/
structure Profile where
  personal_number : String
  balance : Option ℚ
  topup_total : Option ℚ
deriving DecidableEq

/-- Charge row of the Supabase `charges` table, restricted to the fields
the webhook reads and writes. -/
structure Charge where
  id : Nat
  personal_number : String
  amount : Option ℚ
  status : String
  telegram_message_id : Option Int
  paid_amount : Option ℚ
deriving DecidableEq

/-- Order row of the Supabase `orders` table, restricted to the fields the
webhook reads and writes. -/
structure Order where
  id : Nat
  personal_number : String
  status : String
  replied : Bool
  telegram_message_id : Option Int
deriving DecidableEq

/-- Notification row of the Supabase `notifications` table. -/
structure Notification where
  id : Nat
  personal_number : String
  text : String
  read : Bool
deriving DecidableEq

/-- The relevant Supabase tables as row lists. -/
structure DB where
  profiles : List Profile
  charges : List Charge
  orders : List Order
  notifications : List Notification
deriving DecidableEq

/-- The JSON response returned by `POST /api/telegram/webhook/:token`,
lines 444-574. -/
inductive Action where
  | noMessage
  | credited (a : ℚ)
  | profileNotFound
  | approvedNoAmount
  | orderCredited (a : ℚ)
  | orderProcessing
  | noMatching
  | noAction
deriving DecidableEq

/-- Amount extraction of lines 463-466 (and 524-526): the first maximal
`[\d\.,]+` token anywhere in the text, its commas replaced by dots, parsed
with `parseFloat`. -/
def extractAmount (text : String) : Option ℚ :=
  match firstRun isAmountChar text.data with
  | none => none
  | some tok => parseFloatDD (commasToDots tok)

/-- The no-amount charge branch of lines 496-517: the charge is marked
`approved` and, when the profile row exists, a notification is inserted. -/
def chargeNoAmount (now : Nat) (replyToId : Int) (charge : Charge) (db : DB) : DB × Action :=
  let charges' :=
    updateAll (fun c => c.id = charge.id)
      (fun c => { c with status := "approved", telegram_message_id := some replyToId }) db.charges
  let db1 := { db with charges := charges' }
  match db1.profiles.find? (fun p => p.personal_number = charge.personal_number) with
  | some profile =>
    let notif : Notification :=
      { id := now, personal_number := profile.personal_number,
        text := "تمت معالجة طلب شحن (" ++ toString charge.id ++ ") من قبل الإدارة.",
        read := false }
    ({ db1 with notifications := db1.notifications ++ [notif] }, .approvedNoAmount)
  | none => (db1, .approvedNoAmount)

/-- The charge-reply branch of lines 460-518: a parsed strictly-positive
amount credits the charge's own profile (balance and `topup_total`) and
marks the charge `approved`; otherwise the charge is approved with no
credit.  A missing profile row aborts with `profile_not_found` and no
mutation. -/
def chargeReply (now : Nat) (replyToId : Int) (text : String) (charge : Charge)
    (db : DB) : DB × Action :=
  match extractAmount text with
  | some a =>
    if 0 < a then
      match db.profiles.find? (fun p => p.personal_number = charge.personal_number) with
      | some profile =>
        let newBalance := jsOr0 profile.balance + a
        let newTopup := jsOr0 profile.topup_total + a
        let profiles' :=
          updateAll (fun p => p.personal_number = profile.personal_number)
            (fun p => { p with balance := some newBalance, topup_total := some newTopup })
            db.profiles
        let charges' :=
          updateAll (fun c => c.id = charge.id)
            (fun c => { c with status := "approved", telegram_message_id := some replyToId,
                               paid_amount := some a }) db.charges
        let notif : Notification :=
          { id := now, personal_number := profile.personal_number,
            text := "تم اضافة " ++ qToString a ++ " ل.س إلى رصيدك من قبل الإدارة.",
            read := false }
        ({ db with profiles := profiles', charges := charges',
                   notifications := db.notifications ++ [notif] }, .credited a)
      | none => (db, .profileNotFound)
    else chargeNoAmount now replyToId charge db
  | none => chargeNoAmount now replyToId charge db

/-- The no-amount order branch of lines 551-562: the order is marked
`replied` with status `processing`. -/
def orderProcessing (replyToId : Int) (order : Order) (db : DB) : DB × Action :=
  let _ := replyToId
  let orders' :=
    updateAll (fun o => o.id = order.id)
      (fun o => { o with replied := true, status := "processing" }) db.orders
  ({ db with orders := orders' }, .orderProcessing)

/-- The order-reply branch of lines 521-563: a parsed strictly-positive
amount credits the order's profile and marks the order `completed`; with no
amount the order is marked `processing`; a matched order with a positive
amount but no profile row falls through to the `no matching` response with
no mutation. -/
def orderReply (now : Nat) (replyToId : Int) (text : String) (order : Order)
    (db : DB) : DB × Action :=
  match extractAmount text with
  | some a =>
    if 0 < a then
      match db.profiles.find? (fun p => p.personal_number = order.personal_number) with
      | some profile =>
        let newBalance := jsOr0 profile.balance + a
        let profiles' :=
          updateAll (fun p => p.personal_number = profile.personal_number)
            (fun p => { p with balance := some newBalance }) db.profiles
        let orders' :=
          updateAll (fun o => o.id = order.id)
            (fun o => { o with status := "completed", replied := true }) db.orders
        let notif : Notification :=
          { id := now, personal_number := profile.personal_number,
            text := "تمت معالجة طلبك (" ++ toString order.id ++ ") وإضافة " ++ qToString a ++
                    " ل.س إلى رصيدك.",
            read := false }
        ({ db with profiles := profiles', orders := orders',
                   notifications := db.notifications ++ [notif] }, .orderCredited a)
      | none => (db, .noMatching)
    else orderProcessing replyToId order db
  | none => orderProcessing replyToId order db

/-- `POST /api/telegram/webhook/:token` of lines 435-575 (after the token
check): for a reply message the charges table is scanned first, then the
orders table; an unmatched reply returns `no matching` with no mutation. -/
def telegramWebhook (now : Nat) (message : Option TgMessage) (db : DB) : DB × Action :=
  match message with
  | none => (db, .noMessage)
  | some msg =>
    match msg.replyToMessageId with
    | some replyToId =>
      let text := jsTrim msg.text
      match db.charges.find? (fun c => c.telegram_message_id = some replyToId) with
      | some charge => chargeReply now replyToId text charge db
      | none =>
        match db.orders.find? (fun o => o.telegram_message_id = some replyToId) with
        | some order => orderReply now replyToId text order db
        | none => (db, .noMatching)
    | none => (db, .noAction)

end Hook

/-! Concrete states and messages used by the per-claim counterexamples
and witnesses below. -/

/-- Webhook state used by the C8 counterexample and witness: one profile,
one charge and one order, the charge and the order both carrying the same
`telegram_message_id` 100. -/
def c8wdb : Hook.DB :=
  ⟨[⟨"1", some 0, some 0⟩], [⟨20, "1", some 5, "s", some 100, none⟩],
   [⟨10, "1", "s", false, some 100⟩], []⟩

/-- Polling-server state used by the C8 witness: an order and a charge
both carrying `telegramMessageId` 100. -/
def c8pdb : Poll.DB :=
  ⟨[⟨"1", "n", "", some 0⟩], [⟨10, "1", "s", false, some 100⟩],
   [⟨20, "1", some 5, "s", false, some 100⟩], []⟩

/-- Profiles list used by the C10 witness: the only profile is 999, while
the charge below belongs to 1234567. -/
def c10db : Poll.DB :=
  ⟨[⟨"999", "n", "", some 10⟩], [], [⟨1, "1234567", some 500, "قيد المراجعة", false, some 100⟩], []⟩

/-- State with no profile at all, for the no-matching-profile half of the
C10 witness. -/
def c10dbEmpty : Poll.DB :=
  ⟨[], [], [⟨1, "1234567", some 500, "قيد المراجعة", false, some 100⟩], []⟩

/-- Polling-server state used by the C9 counterexample and witness: one
pending, un-replied charge with handle 100 and its profile. -/
def c9db : Poll.DB :=
  ⟨[⟨"7", "n", "", some 10⟩], [], [⟨1, "7", some 500, "قيد المراجعة", false, some 100⟩], []⟩

/-- Webhook state used by the C3 counterexample: the profile and a pending
charge with handle 100. -/
def c3wdb : Hook.DB :=
  ⟨[⟨"1234567", some 0, some 0⟩], [⟨1, "1234567", some 1500, "قيد المراجعة", some 100, none⟩],
   [], []⟩

/-- Polling-server state used by the C4 counterexample: a profile and a
pending charge with handle 100. -/
def c4db : Poll.DB :=
  ⟨[⟨"7", "n", "", some 10⟩], [], [⟨1, "7", some 500, "قيد المراجعة", false, some 100⟩], []⟩

/-- Webhook state used by the C4 witness: one profile and a pending charge
with handle 100. -/
def c4wdbx : Hook.DB :=
  ⟨[⟨"7", some 10, some 0⟩], [⟨1, "7", some 500, "قيد المراجعة", some 100, none⟩], [], []⟩

/-- Credit reply used by the C1 counterexample and witness: it carries the
amount marker and a restated personal-number marker, replying to handle
100. -/
def c1u : TgUpdate := ⟨7, some ⟨"تم, الرصيد: 1,500 الرقم الشخصي 1234567", some 100⟩⟩

/-- Polling-server state used by the C1 counterexample and witness. -/
def c1db : Poll.DB :=
  ⟨[⟨"1234567", "n", "", some 0⟩], [],
   [⟨1, "1234567", some 1500, "قيد المراجعة", false, some 100⟩], []⟩

/-! Helper lemmas shared by several claims. -/

theorem updateFirst_nil {α : Type} (p : α → Bool) (f : α → α) : updateFirst p f [] = [] := rfl

/-- Rewriting the first matching element keeps it the first match of the same
predicate, provided the rewrite preserves the predicate. -/
theorem find?_updateFirst {α : Type} {p : α → Bool} {f : α → α} :
    ∀ {l : List α} {x : α}, l.find? p = some x → p (f x) = true →
      (updateFirst p f l).find? p = some (f x) := by
  intro l
  induction l with
  | nil => intro x h _; simp [List.find?] at h
  | cons a t ih =>
    intro x h hf
    by_cases ha : p a = true
    · rw [List.find?_cons_of_pos _ ha] at h
      cases h
      simp [updateFirst, ha, List.find?_cons_of_pos _ hf]
    · have ha' : p a = false := by
        cases hb : p a
        · rfl
        · exact absurd hb ha
      rw [List.find?_cons_of_neg _ (by simp [ha'])] at h
      simp [updateFirst, ha', List.find?_cons_of_neg _ (by simp [ha'] : ¬ p a), ih h hf]

/-- A predicate-false element is left alone by `updateFirst` when scanning
past it, so `find?` for an unrelated predicate is unaffected; specialised
form: `updateFirst` never changes the list length or the unmatched tail. -/
theorem find?_of_find?_eq_none {α : Type} {p : α → Bool} {l : List α}
    (h : l.find? p = none) (f : α → α) : updateFirst p f l = l := by
  induction l with
  | nil => rfl
  | cons a t ih =>
    by_cases ha : p a = true
    · rw [List.find?_cons_of_pos _ ha] at h; cases h
    · have ha' : p a = false := by
        cases hb : p a
        · rfl
        · exact absurd hb ha
      rw [List.find?_cons_of_neg _ (by simp [ha'])] at h
      simp [updateFirst, ha', ih h]

namespace Poll

/-- Full unfolding of the charge-credit branch of `genericBotReplyHandler`
(lines 416-442): when the reply matches no order, matches a charge, carries
both the amount marker and the restated personal number, and that personal
number resolves to a profile, the handler credits that profile, marks the
charge transferred, and prepends one balance notification. -/
theorem handler_credit_eq (mOk : Bool) (now : Nat) (u : TgUpdate) (msg : TgMessage)
    (rid : Int) (db : DB) (ch : Charge) (prof : Profile) (a : Option ℚ) (p : String)
    (hmsg : u.message = some msg)
    (hrid : msg.replyToMessageId = some rid)
    (hord : db.orders.find? (fun o => msgIdMatches o.telegramMessageId rid) = none)
    (hch : db.charges.find? (fun c => msgIdMatches c.telegramMessageId rid) = some ch)
    (hcl : classifyChargeReply (jsTrim msg.text) = .approveWith a p)
    (hprof : findProfileByPersonal db p = some prof) :
    genericBotReplyHandler mOk now u db =
      { profiles := updateFirst (fun q => q.personalNumber = p)
          (fun q => { q with balance := jsAdd (jsOr0 prof.balance) a }) db.profiles,
        orders := db.orders,
        charges := updateFirst (fun c => msgIdMatches c.telegramMessageId rid)
          (fun c => { c with status := "تم تحويل الرصيد", replied := true }) db.charges,
        notifications :=
          { id := toString now ++ "-balance", personal := prof.personalNumber,
            text := "تم شحن رصيدك بمبلغ " ++ toLocaleEnOpt a ++ " ل.س. رصيدك الآن: " ++
              qLocale (jsOr0 (jsAdd (jsOr0 prof.balance) a)) ++ " ل.س",
            read := false, createdAt := now } :: db.notifications } := by
  simp only [genericBotReplyHandler, hmsg, hrid, hord, hch, hcl, hprof]

/-- Full unfolding of the charge free-text branch (lines 443-462): the
status is set verbatim, `replied` is set, the balance is untouched. -/
theorem handler_freetext_parts (mOk : Bool) (now : Nat) (u : TgUpdate) (msg : TgMessage)
    (rid : Int) (db : DB) (ch : Charge) (t : String)
    (hmsg : u.message = some msg)
    (hrid : msg.replyToMessageId = some rid)
    (hord : db.orders.find? (fun o => msgIdMatches o.telegramMessageId rid) = none)
    (hch : db.charges.find? (fun c => msgIdMatches c.telegramMessageId rid) = some ch)
    (hcl : classifyChargeReply (jsTrim msg.text) = .freeText t) :
    (genericBotReplyHandler mOk now u db).profiles = db.profiles
    ∧ (genericBotReplyHandler mOk now u db).orders = db.orders
    ∧ (genericBotReplyHandler mOk now u db).charges =
        updateFirst (fun c => msgIdMatches c.telegramMessageId rid)
          (fun c => { c with status := t, replied := true }) db.charges := by
  simp only [genericBotReplyHandler, hmsg, hrid, hord, hch, hcl]
  cases hp : findProfileByPersonal db ch.personalNumber <;> simp [hp]

/-- The in-memory cursor after the update loop is the fold of the update ids
over the batch (the loop assigns `DB.tgOffsets[botToken] = u.update_id` for
each update in order, regardless of what the handler does). -/
theorem pollLoop_offset (h : TgUpdate → DB → Option DB) :
    ∀ (us : List TgUpdate) (db : DB) (off : Nat),
      (pollLoop h us (db, off)).2 = us.foldl (fun _acc u => u.updateId) off := by
  intro us
  induction us with
  | nil => intro db off; rfl
  | cons u t ih => intro db off; simp [pollLoop, ih]

/-- Folding the id-projection over a non-empty batch yields the last id. -/
theorem foldl_updateId_eq_getLast :
    ∀ (us : List TgUpdate) (off : Nat) (hne : us ≠ []),
      us.foldl (fun _acc u => u.updateId) off = (us.getLast hne).updateId := by
  intro us
  induction us with
  | nil => intro off hne; exact absurd rfl hne
  | cons u t ih =>
    intro off hne
    cases t with
    | nil => rfl
    | cons v t' =>
      rw [List.foldl_cons, List.getLast_cons (show v :: t' ≠ [] from by simp)]
      exact ih (u.updateId) (by simp)

end Poll

namespace Hook

/-- Every branch of the webhook charge-reply handler leaves the orders
table untouched (the code credits or approves the charge and returns
without ever reaching the order scan). -/
theorem chargeReply_orders (now : Nat) (rid : Int) (t : String) (c : Charge) (db : DB) :
    (chargeReply now rid t c db).1.orders = db.orders := by
  unfold chargeReply
  cases h : extractAmount t with
  | none =>
    simp only [h, chargeNoAmount]
    cases hq : db.profiles.find? (fun p => p.personal_number = c.personal_number) <;> simp [hq]
  | some a =>
    simp only [h]
    by_cases h0 : 0 < a
    · simp only [if_pos h0]
      cases hq : db.profiles.find? (fun p => p.personal_number = c.personal_number) <;>
        simp [hq]
    · simp only [if_neg h0, chargeNoAmount]
      cases hq : db.profiles.find? (fun p => p.personal_number = c.personal_number) <;>
        simp [hq]

/-- The no-amount charge branch never touches the profiles table. -/
theorem chargeNoAmount_profiles (now : Nat) (rid : Int) (c : Charge) (db : DB) :
    (chargeNoAmount now rid c db).1.profiles = db.profiles := by
  unfold chargeNoAmount
  cases hq : db.profiles.find? (fun p => p.personal_number = c.personal_number) <;> simp [hq]

/-- With no parsable amount the charge reply leaves the profiles table
unchanged (the charge is only marked approved). -/
theorem chargeReply_profiles_of_none (now : Nat) (rid : Int) (t : String) (c : Charge)
    (db : DB) (h : extractAmount t = none) :
    (chargeReply now rid t c db).1.profiles = db.profiles := by
  unfold chargeReply
  simp only [h]
  exact chargeNoAmount_profiles now rid c db

/-- With a non-positive parsed amount the charge reply leaves the profiles
table unchanged. -/
theorem chargeReply_profiles_of_nonpos (now : Nat) (rid : Int) (t : String) (c : Charge)
    (db : DB) (a : ℚ) (h : extractAmount t = some a) (h0 : ¬ 0 < a) :
    (chargeReply now rid t c db).1.profiles = db.profiles := by
  unfold chargeReply
  simp only [h, if_neg h0]
  exact chargeNoAmount_profiles now rid c db

/-- With a strictly positive parsed amount and an existing profile row the
charge reply rewrites every profile row with the charge's personal number,
setting the new balance and `topup_total` computed from the found row. -/
theorem chargeReply_profiles_of_pos (now : Nat) (rid : Int) (t : String) (c : Charge)
    (db : DB) (a : ℚ) (prof : Profile) (h : extractAmount t = some a) (h0 : 0 < a)
    (hq : db.profiles.find? (fun p => p.personal_number = c.personal_number) = some prof) :
    (chargeReply now rid t c db).1.profiles
      = updateAll (fun q => q.personal_number = prof.personal_number)
          (fun q => { q with balance := some (jsOr0 prof.balance + a),
                             topup_total := some (jsOr0 prof.topup_total + a) }) db.profiles
    ∧ (chargeReply now rid t c db).2 = Action.credited a := by
  unfold chargeReply
  simp only [h, if_pos h0, hq]
  exact ⟨trivial, trivial⟩

end Hook

/-! Claim theorems. -/

/-- C2 (amended): the polling loop assigns the cursor each update's id in
arrival order and the end-of-batch `saveData` persists the final cursor (the
last update id) whether or not the per-message handler succeeded — handler
errors are caught, so a failed message's cursor is still advanced and the
message is not redelivered; the cursor is non-decreasing provided the source
returns only ids at or above the previous offset. -/
theorem C2_cursor_advancement (h : TgUpdate → Poll.DB → Option Poll.DB)
    (us : List TgUpdate) (s : Poll.PollState) (hne : us ≠ []) :
    (Poll.pollTelegramForBot h us s).persistedOffset = (us.getLast hne).updateId
    ∧ ((∀ u ∈ us, s.offset ≤ u.updateId) →
        s.offset ≤ (Poll.pollTelegramForBot h us s).persistedOffset) := by
  have h1 : (Poll.pollTelegramForBot h us s).persistedOffset = (us.getLast hne).updateId := by
    simp only [Poll.pollTelegramForBot]
    rw [Poll.pollLoop_offset, Poll.foldl_updateId_eq_getLast us s.offset hne]
  refine ⟨h1, fun hall => ?_⟩
  rw [h1]
  exact hall _ (List.getLast_mem hne)

/-- C2 counterexample: a batch whose only message makes the handler throw
still ends the poll cycle with the cursor advanced to that message's id and
persisted, so the failed message is never redelivered — the claim's
"cursor is not advanced past a failed message" is false of the code. -/
theorem C2_counterexample :
    (Poll.pollTelegramForBot (fun _ _ => none) [⟨7, none⟩]
        ⟨⟨[], [], [], []⟩, 0, 0⟩).persistedOffset = 7
    ∧ (fun (_ : TgUpdate) (_ : Poll.DB) => (none : Option Poll.DB)) ⟨7, none⟩ ⟨[], [], [], []⟩
        = none :=
  ⟨rfl, rfl⟩

/-- C2 witness: the amended cursor theorem applied at a concrete batch. -/
theorem C2_witness :
    (Poll.pollTelegramForBot (fun _ db => some db) [⟨5, none⟩]
        ⟨⟨[], [], [], []⟩, 3, 3⟩).persistedOffset = 5
    ∧ 3 ≤ (Poll.pollTelegramForBot (fun _ db => some db) [⟨5, none⟩]
        ⟨⟨[], [], [], []⟩, 3, 3⟩).persistedOffset := by
  have h := C2_cursor_advancement (fun _ db => some db) [⟨5, none⟩]
    ⟨⟨[], [], [], []⟩, 3, 3⟩ (by simp)
  refine ⟨by simpa using h.1, h.2 ?_⟩
  intro u hu
  rw [List.mem_singleton] at hu
  subst hu
  decide

/-- C5 (confirmed): an inbound reply whose reply-to id matches no stored
order and no stored charge leaves the polling server's DB completely
unchanged (no balances, no statuses, no notifications), and makes the
webhook server return its `no matching` response with the Supabase state
unchanged. -/
theorem C5_unmatched_noop (mOk : Bool) (now : Nat) (u : TgUpdate) (msg : TgMessage) (rid : Int)
    (db : Poll.DB) (wdb : Hook.DB)
    (hmsg : u.message = some msg)
    (hrid : msg.replyToMessageId = some rid)
    (hord : db.orders.find? (fun o => Poll.msgIdMatches o.telegramMessageId rid) = none)
    (hch : db.charges.find? (fun c => Poll.msgIdMatches c.telegramMessageId rid) = none)
    (hwch : wdb.charges.find? (fun c => c.telegram_message_id = some rid) = none)
    (hword : wdb.orders.find? (fun o => o.telegram_message_id = some rid) = none) :
    Poll.genericBotReplyHandler mOk now u db = db
    ∧ Hook.telegramWebhook now (some msg) wdb = (wdb, Hook.Action.noMatching) := by
  constructor
  · simp only [Poll.genericBotReplyHandler, hmsg, hrid, hord, hch]
  · simp only [Hook.telegramWebhook, hrid, hwch, hword]

/-- C5 witness: the unmatched-reply theorem applied at concrete states that
do hold an (unrelated) order and charge. -/
theorem C5_witness :
    Poll.genericBotReplyHandler true 9
        ⟨1, some ⟨"تم", some 100⟩⟩
        ⟨[⟨"5", "n", "", some 10⟩], [⟨2, "5", "s", false, some 1⟩],
         [⟨3, "5", some 4, "s", false, some 2⟩], []⟩
      = ⟨[⟨"5", "n", "", some 10⟩], [⟨2, "5", "s", false, some 1⟩],
         [⟨3, "5", some 4, "s", false, some 2⟩], []⟩
    ∧ Hook.telegramWebhook 9 (some ⟨"تم", some 100⟩)
        ⟨[⟨"5", some 10, some 0⟩], [⟨3, "5", some 4, "s", some 2, none⟩],
         [⟨2, "5", "s", false, some 1⟩], []⟩
      = (⟨[⟨"5", some 10, some 0⟩], [⟨3, "5", some 4, "s", some 2, none⟩],
          [⟨2, "5", "s", false, some 1⟩], []⟩, Hook.Action.noMatching) :=
  C5_unmatched_noop true 9 ⟨1, some ⟨"تم", some 100⟩⟩ ⟨"تم", some 100⟩ 100 _ _
    rfl rfl (by decide) (by decide) (by decide) (by decide)

/-- C6 (confirmed): the login mirror reconciliation takes
`max(local balance, mirror balance)`: a stale lower mirror value never
lowers the local balance (local 5000 with mirror 3000 stays 5000) and a
higher mirror value wins (mirror 7000 with local 5000 becomes 7000). -/
theorem C6_login_max_merge :
    (∀ (p : Poll.Profile) (sp : Poll.SheetProfile),
        (Poll.loginSheetSync p (some sp)).balance
          = some (max (jsOr0 p.balance) (jsOr0 sp.balance)))
    ∧ (Poll.loginSheetSync ⟨"1", "n", "e", some 5000⟩
        (some ⟨"1", "", "", some 3000⟩)).balance = some 5000
    ∧ (Poll.loginSheetSync ⟨"1", "n", "e", some 5000⟩
        (some ⟨"1", "", "", some 7000⟩)).balance = some 7000 := by
  refine ⟨fun p sp => rfl, by decide, by decide⟩

/-- C7 (confirmed): the sheet-mirror write is attempted at most 3 times; on
total failure it sleeps 800 ms then 1600 ms between attempts and returns
`false` without throwing; and the reply handler's local state (balance,
status, notifications) is the same function of its inputs whatever the
mirror write returned, so retry exhaustion never rolls the local commit
back. -/
theorem C7_mirror_retry :
    (∀ fail : Nat → Bool, fail 1 = true → fail 2 = true → fail 3 = true →
        Poll.updateBalanceInSheet fail = ⟨false, [800, 1600], 3⟩)
    ∧ (∀ fail : Nat → Bool, (Poll.updateBalanceInSheet fail).attemptsMade ≤ 3)
    ∧ (∀ (mOk1 mOk2 : Bool) (now : Nat) (u : TgUpdate) (db : Poll.DB),
        Poll.genericBotReplyHandler mOk1 now u db = Poll.genericBotReplyHandler mOk2 now u db) := by
  refine ⟨?_, ?_, fun _ _ _ _ _ => rfl⟩
  · intro fail h1 h2 h3
    simp [Poll.updateBalanceInSheet, Poll.updateBalanceGo, h1, h2, h3]
  · intro fail
    have key : ∀ (fuel k : Nat), (Poll.updateBalanceGo fail k fuel).attemptsMade ≤ fuel := by
      intro fuel
      induction fuel with
      | zero => intro k; simp [Poll.updateBalanceGo]
      | succ n ih =>
        intro k
        by_cases hf : fail k = true
        · simpa [Poll.updateBalanceGo, hf] using ih (k + 1)
        · simp [Poll.updateBalanceGo, hf]
    exact key 3 1

/-- C8 (amended): the polling server scans orders first and then charges
with the first stored match winning, so there a reply handle that matches an
order never touches the charges (or profiles); the webhook server scans
charges first and then orders, so there a reply handle that matches a charge
is processed as a charge reply and never touches the orders, even when an
order carries the same handle. -/
theorem C8_scan_order (mOk : Bool) (now : Nat) (u : TgUpdate) (msg : TgMessage) (rid : Int)
    (db : Poll.DB) (ord : Poll.Order) (wdb : Hook.DB) (wch : Hook.Charge)
    (hmsg : u.message = some msg)
    (hrid : msg.replyToMessageId = some rid)
    (hord : db.orders.find? (fun o => Poll.msgIdMatches o.telegramMessageId rid) = some ord)
    (hwch : wdb.charges.find? (fun c => c.telegram_message_id = some rid) = some wch) :
    (Poll.genericBotReplyHandler mOk now u db).charges = db.charges
    ∧ (Poll.genericBotReplyHandler mOk now u db).profiles = db.profiles
    ∧ (Hook.telegramWebhook now (some msg) wdb).1.orders = wdb.orders := by
  refine ⟨?_, ?_, ?_⟩
  · simp only [Poll.genericBotReplyHandler, hmsg, hrid, hord]
  · simp only [Poll.genericBotReplyHandler, hmsg, hrid, hord]
  · simp only [Hook.telegramWebhook, hrid, hwch]
    exact Hook.chargeReply_orders now rid (jsTrim msg.text) wch wdb

/-- C8 counterexample: in the webhook server, when an order and a charge
share the reply handle 100, the reply "500" is processed as a charge reply —
the charge is credited and approved while the matching order is untouched —
so the claim's "a handle that matches an Order is never processed as a
Charge reply" is false of the code. -/
theorem C8_counterexample :
    (Hook.telegramWebhook 3 (some ⟨"500", some 100⟩) c8wdb).2 = Hook.Action.credited 500
    ∧ (Hook.telegramWebhook 3 (some ⟨"500", some 100⟩) c8wdb).1.orders = c8wdb.orders
    ∧ (c8wdb.orders.find? (fun o => o.telegram_message_id = some 100)).isSome = true
    ∧ (Hook.telegramWebhook 3 (some ⟨"500", some 100⟩) c8wdb).1.charges.map Hook.Charge.status
        = ["approved"] := by
  decide

/-- C8 witness: the scan-order theorem applied at concrete states where
both collections contain a row with the replied-to handle. -/
theorem C8_witness :
    (Poll.genericBotReplyHandler true 3 ⟨1, some ⟨"تم", some 100⟩⟩ c8pdb).charges = c8pdb.charges
    ∧ (Poll.genericBotReplyHandler true 3 ⟨1, some ⟨"تم", some 100⟩⟩ c8pdb).profiles = c8pdb.profiles
    ∧ (Hook.telegramWebhook 3 (some ⟨"تم", some 100⟩) c8wdb).1.orders = c8wdb.orders :=
  C8_scan_order true 3 ⟨1, some ⟨"تم", some 100⟩⟩ ⟨"تم", some 100⟩ 100 c8pdb
    ⟨10, "1", "s", false, some 100⟩ c8wdb ⟨20, "1", some 5, "s", some 100, none⟩
    rfl rfl (by decide) (by decide)

/-- C10 (confirmed): when a charge reply carries both the balance marker and
a restated personal number, the polling server credits the profile named by
the restated number — which may differ from the charge's own
`personalNumber` — and when no profile matches the restated number the
handler returns the DB unchanged: no balance change, no status or `replied`
change on the charge (it stays pending) and no notification. -/
theorem C10_restated_personal (mOk : Bool) (now : Nat) (u : TgUpdate) (msg : TgMessage)
    (rid : Int) (db : Poll.DB) (ch : Poll.Charge) (a : Option ℚ) (p : String)
    (hmsg : u.message = some msg)
    (hrid : msg.replyToMessageId = some rid)
    (hord : db.orders.find? (fun o => Poll.msgIdMatches o.telegramMessageId rid) = none)
    (hch : db.charges.find? (fun c => Poll.msgIdMatches c.telegramMessageId rid) = some ch)
    (hcl : Poll.classifyChargeReply (jsTrim msg.text) = Poll.Intent.approveWith a p) :
    (∀ prof : Poll.Profile, Poll.findProfileByPersonal db p = some prof →
        (Poll.genericBotReplyHandler mOk now u db).profiles.find?
            (fun q => q.personalNumber = p)
          = some { prof with balance := jsAdd (jsOr0 prof.balance) a })
    ∧ (Poll.findProfileByPersonal db p = none →
        Poll.genericBotReplyHandler mOk now u db = db) := by
  constructor
  · intro prof hprof
    rw [Poll.handler_credit_eq mOk now u msg rid db ch prof a p hmsg hrid hord hch hcl hprof]
    refine find?_updateFirst hprof ?_
    have hpd := List.find?_some hprof
    simpa using hpd
  · intro hnone
    simp only [Poll.genericBotReplyHandler, hmsg, hrid, hord, hch, hcl, hnone]

/-- C10 witness: the restated-personal theorem applied at a reply crediting
profile 999 against a charge belonging to 1234567, and at a state where the
restated profile does not exist. -/
theorem C10_witness :
    (Poll.genericBotReplyHandler true 9 ⟨1, some ⟨"الرصيد: 500 الرقم الشخصي 999", some 100⟩⟩
        c10db).profiles.find? (fun q => q.personalNumber = "999")
      = some { personalNumber := "999", name := "n", email := "",
               balance := jsAdd (jsOr0 (some 10)) (some 500) }
    ∧ Poll.genericBotReplyHandler true 9 ⟨1, some ⟨"الرصيد: 500 الرقم الشخصي 999", some 100⟩⟩
        c10dbEmpty = c10dbEmpty := by
  constructor
  · exact (C10_restated_personal true 9 ⟨1, some ⟨"الرصيد: 500 الرقم الشخصي 999", some 100⟩⟩
      ⟨"الرصيد: 500 الرقم الشخصي 999", some 100⟩ 100 c10db
      ⟨1, "1234567", some 500, "قيد المراجعة", false, some 100⟩ (some 500) "999"
      rfl rfl (by decide) (by decide) (by decide)).1 ⟨"999", "n", "", some 10⟩ (by decide)
  · exact (C10_restated_personal true 9 ⟨1, some ⟨"الرصيد: 500 الرقم الشخصي 999", some 100⟩⟩
      ⟨"الرصيد: 500 الرقم الشخصي 999", some 100⟩ 100 c10dbEmpty
      ⟨1, "1234567", some 500, "قيد المراجعة", false, some 100⟩ (some 500) "999"
      rfl rfl (by decide) (by decide) (by decide)).2 (by decide)

/-- C9 (amended): for a pending charge, a reply classified as free text
sets the status text verbatim and leaves every profile balance unchanged,
but it also sets the charge's `replied` flag to `true` and is therefore not
an update of the status text alone; since no code path consults `replied`,
a later credit reply to the same handle is still applied in full. -/
theorem C9_freetext_status (mOk : Bool) (now : Nat) (u : TgUpdate) (msg : TgMessage)
    (rid : Int) (db : Poll.DB) (ch : Poll.Charge) (t : String)
    (hmsg : u.message = some msg)
    (hrid : msg.replyToMessageId = some rid)
    (hord : db.orders.find? (fun o => Poll.msgIdMatches o.telegramMessageId rid) = none)
    (hch : db.charges.find? (fun c => Poll.msgIdMatches c.telegramMessageId rid) = some ch)
    (hcl : Poll.classifyChargeReply (jsTrim msg.text) = Poll.Intent.freeText t) :
    (Poll.genericBotReplyHandler mOk now u db).profiles = db.profiles
    ∧ (Poll.genericBotReplyHandler mOk now u db).charges =
        updateFirst (fun c => Poll.msgIdMatches c.telegramMessageId rid)
          (fun c => { c with status := t, replied := true }) db.charges
    ∧ ∀ (now2 : Nat) (u2 : TgUpdate) (msg2 : TgMessage) (a : Option ℚ) (p : String)
        (prof : Poll.Profile),
        u2.message = some msg2 → msg2.replyToMessageId = some rid →
        Poll.classifyChargeReply (jsTrim msg2.text) = Poll.Intent.approveWith a p →
        Poll.findProfileByPersonal db p = some prof →
        (Poll.genericBotReplyHandler mOk now2 u2
            (Poll.genericBotReplyHandler mOk now u db)).profiles.find?
            (fun q => q.personalNumber = p)
          = some { prof with balance := jsAdd (jsOr0 prof.balance) a } := by
  obtain ⟨hp, ho, hc⟩ := Poll.handler_freetext_parts mOk now u msg rid db ch t hmsg hrid hord hch hcl
  refine ⟨hp, hc, ?_⟩
  intro now2 u2 msg2 a p prof hmsg2 hrid2 hcl2 hprof
  have hchTm := List.find?_some hch
  have hord' : (Poll.genericBotReplyHandler mOk now u db).orders.find?
      (fun o => Poll.msgIdMatches o.telegramMessageId rid) = none := by
    rw [ho, hord]
  have hch' : (Poll.genericBotReplyHandler mOk now u db).charges.find?
      (fun c => Poll.msgIdMatches c.telegramMessageId rid)
      = some { ch with status := t, replied := true } := by
    rw [hc]
    exact find?_updateFirst hch hchTm
  have hprof' : Poll.findProfileByPersonal (Poll.genericBotReplyHandler mOk now u db) p
      = some prof := by
    show (Poll.genericBotReplyHandler mOk now u db).profiles.find?
      (fun q => q.personalNumber = p) = some prof
    rw [hp]
    exact hprof
  rw [Poll.handler_credit_eq mOk now2 u2 msg2 rid _ _ prof a p hmsg2 hrid2 hord' hch' hcl2 hprof']
  rw [hp]
  refine find?_updateFirst hprof ?_
  simpa using List.find?_some hprof

/-- C9 counterexample: a free-text reply to a pending charge flips the
charge's `replied` flag from `false` to `true` (and appends a status
notification), so it does not leave the request's resolved/replied flag
unchanged and does not update only the status text. -/
theorem C9_counterexample :
    (Poll.genericBotReplyHandler true 9 ⟨1, some ⟨"جاري المراجعة", some 100⟩⟩ c9db).charges.map
        Poll.Charge.replied = [true]
    ∧ c9db.charges.map Poll.Charge.replied = [false]
    ∧ (Poll.genericBotReplyHandler true 9 ⟨1, some ⟨"جاري المراجعة", some 100⟩⟩ c9db).charges.map
        Poll.Charge.status = ["جاري المراجعة"]
    ∧ ((Poll.genericBotReplyHandler true 9 ⟨1, some ⟨"جاري المراجعة", some 100⟩⟩
        c9db).notifications.length = 1) := by
  decide

/-- C9 witness: the free-text theorem applied at a concrete pending charge,
including a subsequent credit reply to the same handle that is still applied
(balance 10 + 500). -/
theorem C9_witness :
    (Poll.genericBotReplyHandler true 9 ⟨1, some ⟨"جاري المراجعة", some 100⟩⟩ c9db).profiles
        = c9db.profiles
    ∧ (Poll.genericBotReplyHandler true 9 ⟨1, some ⟨"جاري المراجعة", some 100⟩⟩ c9db).charges =
        updateFirst (fun c => Poll.msgIdMatches c.telegramMessageId 100)
          (fun c => { c with status := "جاري المراجعة", replied := true }) c9db.charges
    ∧ (Poll.genericBotReplyHandler true 11 ⟨2, some ⟨"الرصيد: 500 الرقم الشخصي 7", some 100⟩⟩
          (Poll.genericBotReplyHandler true 9 ⟨1, some ⟨"جاري المراجعة", some 100⟩⟩ c9db)).profiles.find?
          (fun q => q.personalNumber = "7")
        = some { personalNumber := "7", name := "n", email := "",
                 balance := jsAdd (jsOr0 (some 10)) (some 500) } := by
  have h := C9_freetext_status true 9 ⟨1, some ⟨"جاري المراجعة", some 100⟩⟩
    ⟨"جاري المراجعة", some 100⟩ 100 c9db ⟨1, "7", some 500, "قيد المراجعة", false, some 100⟩
    "جاري المراجعة" rfl rfl (by decide) (by decide) (by decide)
  refine ⟨h.1, h.2.1, ?_⟩
  exact h.2.2 11 ⟨2, some ⟨"الرصيد: 500 الرقم الشخصي 7", some 100⟩⟩
    ⟨"الرصيد: 500 الرقم الشخصي 7", some 100⟩ (some 500) "7" ⟨"7", "n", "", some 10⟩
    rfl rfl (by decide) (by decide)

/-- C3 counterexample: on the spec's example text the polling classifier
returns approve-no-amount, not `ApproveWithAmount(1500)` — the reply writes
the personal number as `للرقم الشخصي`, where the preposition absorbs the
article's alef, so the literal pattern `الرقم الشخصي` does not occur — and
the webhook server likewise applies no credit on that text (its first
`[\d.,]+` token is the bare comma after `تم`, which parses to `NaN`). -/
theorem C3_counterexample :
    Poll.classifyChargeReply "تم, الرصيد: 1,500 للرقم الشخصي 1234567"
        = Poll.Intent.approveNoAmount
    ∧ Poll.classifyChargeReply "تم, الرصيد: 1,500 للرقم الشخصي 1234567"
        ≠ Poll.Intent.approveWith (some 1500) "1234567"
    ∧ (Hook.telegramWebhook 3
        (some ⟨"تم, الرصيد: 1,500 للرقم الشخصي 1234567", some 100⟩) c3wdb).2
        = Hook.Action.approvedNoAmount
    ∧ (Hook.telegramWebhook 3
        (some ⟨"تم, الرصيد: 1,500 للرقم الشخصي 1234567", some 100⟩) c3wdb).1.profiles.map
        Hook.Profile.balance = [some 0] := by
  decide

/-- C3 (amended): the polling classifier maps the spec's examples as stated
once the first example's reply restates the personal number with the
literal marker `الرقم الشخصي` (e.g. `تم, الرصيد: 1,500 الرقم الشخصي
1234567` → amount 1500 for profile 1234567); `تم` alone is approve-no-
amount, `مرفوض` is reject, and `جاري المراجعة` is verbatim free text. -/
theorem C3_classifier_examples :
    Poll.classifyChargeReply "تم, الرصيد: 1,500 الرقم الشخصي 1234567"
        = Poll.Intent.approveWith (some 1500) "1234567"
    ∧ Poll.classifyChargeReply "تم" = Poll.Intent.approveNoAmount
    ∧ Poll.classifyChargeReply "مرفوض" = Poll.Intent.reject
    ∧ Poll.classifyChargeReply "جاري المراجعة" = Poll.Intent.freeText "جاري المراجعة" := by
  decide

/-- C4 counterexample: the reply `تم 500` has `500` as its first numeric
token and `500 > 0`, yet the polling server applies no credit for it (the
token does not follow the marker `الرصيد`, so the handler takes the
keyword branch and balances are untouched); moreover the two normalizations
the claim calls equivalent disagree on the token `1,500`: stripping grouping
commas yields 1500 while comma-to-dot substitution yields 3/2. -/
theorem C4_counterexample :
    firstRun isAmountChar ("تم 500").data = some ['5', '0', '0']
    ∧ parseFloatDD (commasToDots ['5', '0', '0']) = some 500
    ∧ (Poll.genericBotReplyHandler true 9 ⟨1, some ⟨"تم 500", some 100⟩⟩ c4db).profiles
        = c4db.profiles
    ∧ Poll.parseChargeAmount ("1,500").data = some 1500
    ∧ parseFloatDD (commasToDots ("1,500").data)
        = some ((1 : ℚ) + (500 : ℚ) / (10 : ℚ) ^ (3 : Nat))
    ∧ ((1 : ℚ) + (500 : ℚ) / (10 : ℚ) ^ (3 : Nat)) = 3 / 2 := by
  refine ⟨by decide, by decide, by decide, by decide, rfl, by norm_num⟩

/-- C4 (amended): amount extraction differs between the two servers.  In
the polling server the amount token must follow the literal marker
`الرصيد` (not anywhere in the text), is normalized by stripping commas and
whitespace, and — together with a restated personal number — is applied to
the balance with no positivity check.  In the webhook server the amount is
the first `[0-9.,]+` token anywhere in the text, normalized by replacing
commas with dots and parsing with `parseFloat`, and a credit is applied
only when the parsed value is strictly positive. -/
theorem C4_amount_extraction :
    (∀ (t : String) (m pe : List Char),
        Poll.chargeAmountTok t = some m → Poll.chargePersonalTok t = some pe →
        Poll.classifyChargeReply t
          = Poll.Intent.approveWith (Poll.parseChargeAmount m) (String.mk pe))
    ∧ (∀ (mOk : Bool) (now : Nat) (u : TgUpdate) (msg : TgMessage) (rid : Int)
          (db : Poll.DB) (ch : Poll.Charge) (a : Option ℚ) (p : String) (prof : Poll.Profile),
        u.message = some msg → msg.replyToMessageId = some rid →
        db.orders.find? (fun o => Poll.msgIdMatches o.telegramMessageId rid) = none →
        db.charges.find? (fun c => Poll.msgIdMatches c.telegramMessageId rid) = some ch →
        Poll.classifyChargeReply (jsTrim msg.text) = Poll.Intent.approveWith a p →
        Poll.findProfileByPersonal db p = some prof →
        (Poll.genericBotReplyHandler mOk now u db).profiles.find?
            (fun q => q.personalNumber = p)
          = some { prof with balance := jsAdd (jsOr0 prof.balance) a })
    ∧ (∀ (now : Nat) (msg : TgMessage) (rid : Int) (wdb : Hook.DB) (wch : Hook.Charge),
        msg.replyToMessageId = some rid →
        wdb.charges.find? (fun c => c.telegram_message_id = some rid) = some wch →
        ((Hook.extractAmount (jsTrim msg.text) = none →
            (Hook.telegramWebhook now (some msg) wdb).1.profiles = wdb.profiles)
         ∧ (∀ a : ℚ, Hook.extractAmount (jsTrim msg.text) = some a → ¬ 0 < a →
            (Hook.telegramWebhook now (some msg) wdb).1.profiles = wdb.profiles)
         ∧ (∀ (a : ℚ) (prof : Hook.Profile),
            Hook.extractAmount (jsTrim msg.text) = some a → 0 < a →
            wdb.profiles.find? (fun q => q.personal_number = wch.personal_number) = some prof →
            (Hook.telegramWebhook now (some msg) wdb).1.profiles
              = updateAll (fun q => q.personal_number = prof.personal_number)
                  (fun q => { q with balance := some (jsOr0 prof.balance + a),
                                     topup_total := some (jsOr0 prof.topup_total + a) })
                  wdb.profiles))) := by
  refine ⟨?_, ?_, ?_⟩
  · intro t m pe hm hp
    simp only [Poll.classifyChargeReply, hm, hp]
  · intro mOk now u msg rid db ch a p prof hmsg hrid hord hch hcl hprof
    rw [Poll.handler_credit_eq mOk now u msg rid db ch prof a p hmsg hrid hord hch hcl hprof]
    refine find?_updateFirst hprof ?_
    simpa using List.find?_some hprof
  · intro now msg rid wdb wch hrid hwch
    refine ⟨?_, ?_, ?_⟩
    · intro hnone
      simp only [Hook.telegramWebhook, hrid, hwch]
      exact Hook.chargeReply_profiles_of_none now rid (jsTrim msg.text) wch wdb hnone
    · intro a ha h0
      simp only [Hook.telegramWebhook, hrid, hwch]
      exact Hook.chargeReply_profiles_of_nonpos now rid (jsTrim msg.text) wch wdb a ha h0
    · intro a prof ha h0 hprof
      simp only [Hook.telegramWebhook, hrid, hwch]
      exact (Hook.chargeReply_profiles_of_pos now rid (jsTrim msg.text) wch wdb a prof
        ha h0 hprof).1

/-- C4 witness: the extraction theorem applied at a 0-amount marker reply
(the polling server still applies the credit of 0 and transitions the
charge) and at webhook replies with amount `0` (no balance change) and
`500` (balance rewritten). -/
theorem C4_witness :
    Poll.classifyChargeReply "الرصيد: 0 الرقم الشخصي 7"
        = Poll.Intent.approveWith (Poll.parseChargeAmount ['0']) (String.mk ['7'])
    ∧ (Poll.genericBotReplyHandler true 9 ⟨1, some ⟨"الرصيد: 0 الرقم الشخصي 7", some 100⟩⟩
          c4db).profiles.find? (fun q => q.personalNumber = "7")
        = some { personalNumber := "7", name := "n", email := "",
                 balance := jsAdd (jsOr0 (some 10)) (some 0) }
    ∧ (Hook.telegramWebhook 3 (some ⟨"0", some 100⟩) c4wdbx).1.profiles = c4wdbx.profiles
    ∧ (Hook.telegramWebhook 3 (some ⟨"500", some 100⟩) c4wdbx).1.profiles
        = updateAll (fun q => q.personal_number = "7")
            (fun q => { q with balance := some (jsOr0 (some 10) + 500),
                               topup_total := some (jsOr0 (some 0) + 500) }) c4wdbx.profiles := by
  refine ⟨?_, ?_, ?_, ?_⟩
  · exact C4_amount_extraction.1 "الرصيد: 0 الرقم الشخصي 7" ['0'] ['7'] (by decide) (by decide)
  · exact C4_amount_extraction.2.1 true 9 ⟨1, some ⟨"الرصيد: 0 الرقم الشخصي 7", some 100⟩⟩
      ⟨"الرصيد: 0 الرقم الشخصي 7", some 100⟩ 100 c4db
      ⟨1, "7", some 500, "قيد المراجعة", false, some 100⟩ (some 0) "7" ⟨"7", "n", "", some 10⟩
      rfl rfl (by decide) (by decide) (by decide) (by decide)
  · exact (C4_amount_extraction.2.2 3 ⟨"0", some 100⟩ 100 c4wdbx
      ⟨1, "7", some 500, "قيد المراجعة", some 100, none⟩ rfl (by decide)).2.1 0
      (by decide) (by decide)
  · exact (C4_amount_extraction.2.2 3 ⟨"500", some 100⟩ 100 c4wdbx
      ⟨1, "7", some 500, "قيد المراجعة", some 100, none⟩ rfl (by decide)).2.2 500
      ⟨"7", some 10, some 0⟩ (by decide) (by decide) (by decide)

/-- C1 counterexample: processing the same correlated credit reply twice
credits the profile twice — the balance is 1500 after one delivery and 3000
after the replay — so replaying a correlated credit reply N times does not
yield exactly one balance credit. -/
theorem C1_counterexample :
    (Poll.genericBotReplyHandler true 9 c1u c1db).profiles.map Poll.Profile.balance
      = [jsAdd (jsOr0 (some 0)) (some 1500)]
    ∧ jsAdd (jsOr0 (some 0)) (some 1500) = some 1500
    ∧ (Poll.genericBotReplyHandler true 9 c1u
          (Poll.genericBotReplyHandler true 9 c1u c1db)).profiles.map Poll.Profile.balance
      = [jsAdd (jsOr0 (jsAdd (jsOr0 (some 0)) (some 1500))) (some 1500)]
    ∧ jsAdd (jsOr0 (jsAdd (jsOr0 (some 0)) (some 1500))) (some 1500) = some 3000 := by
  refine ⟨rfl, ?_, rfl, ?_⟩
  · simp only [jsOr0, jsAdd, Option.some.injEq]
    norm_num
  · simp only [jsOr0, jsAdd, Option.some.injEq]
    norm_num

/-- C1 (amended): the code has no resolved/replied guard on the credit
path — the handler sets `replied := true` but never reads it — so each
replay of the same correlated credit reply re-applies the credit: after n
deliveries of the reply the profile's balance is the original plus n times
the amount, and the charge is re-transitioned each time.  At-most-once
crediting fails for every n ≥ 2. -/
theorem C1_replay_credits (mOk : Bool) (now : Nat) (u : TgUpdate) (msg : TgMessage)
    (rid : Int) (db : Poll.DB) (ch : Poll.Charge) (prof : Poll.Profile)
    (amt b : ℚ) (p : String)
    (hmsg : u.message = some msg)
    (hrid : msg.replyToMessageId = some rid)
    (hord : db.orders.find? (fun o => Poll.msgIdMatches o.telegramMessageId rid) = none)
    (hch : db.charges.find? (fun c => Poll.msgIdMatches c.telegramMessageId rid) = some ch)
    (hcl : Poll.classifyChargeReply (jsTrim msg.text) = Poll.Intent.approveWith (some amt) p)
    (hprof : Poll.findProfileByPersonal db p = some prof)
    (hbal : prof.balance = some b) :
    ∀ n : Nat,
      ((Poll.genericBotReplyHandler mOk now u)^[n] db).profiles.find?
          (fun q => q.personalNumber = p)
        = some { prof with balance := some (b + n * amt) } := by
  have main : ∀ n : Nat,
      ((Poll.genericBotReplyHandler mOk now u)^[n] db).orders = db.orders
      ∧ (∃ ch', ((Poll.genericBotReplyHandler mOk now u)^[n] db).charges.find?
            (fun c => Poll.msgIdMatches c.telegramMessageId rid) = some ch')
      ∧ ((Poll.genericBotReplyHandler mOk now u)^[n] db).profiles.find?
            (fun q => q.personalNumber = p)
          = some { prof with balance := some (b + n * amt) } := by
    intro n
    induction n with
    | zero =>
      refine ⟨rfl, ⟨ch, by simpa using hch⟩, ?_⟩
      have hb : b + ((0 : Nat) : ℚ) * amt = b := by push_cast; ring
      simp only [Function.iterate_zero, id_eq, hb]
      rw [← hbal]
      exact hprof
    | succ k ih =>
      obtain ⟨ho, ⟨ch', hch'⟩, hp⟩ := ih
      have hordk : ((Poll.genericBotReplyHandler mOk now u)^[k] db).orders.find?
          (fun o => Poll.msgIdMatches o.telegramMessageId rid) = none := by
        rw [ho]; exact hord
      have e := Poll.handler_credit_eq mOk now u msg rid
        ((Poll.genericBotReplyHandler mOk now u)^[k] db) ch'
        { prof with balance := some (b + (k : Nat) * amt) } (some amt) p
        hmsg hrid hordk hch' hcl hp
      rw [Function.iterate_succ_apply', e]
      refine ⟨ho, ?_, ?_⟩
      · exact ⟨_, find?_updateFirst hch' (by simpa using List.find?_some hch')⟩
      · refine Eq.trans (find?_updateFirst hp ?_) ?_
        · simpa using List.find?_some hp
        · have harith : jsAdd (jsOr0 (some (b + ((k : Nat) : ℚ) * amt))) (some amt)
              = some (b + (((k + 1 : Nat)) : ℚ) * amt) := by
            simp only [jsOr0, jsAdd, Option.some.injEq]
            push_cast
            ring
          simp [harith]

  exact fun n => (main n).2.2

/-- C1 witness: the replay theorem applied at the concrete state of the
counterexample with n = 2 replays. -/
theorem C1_witness :
    ((Poll.genericBotReplyHandler true 9 c1u)^[2] c1db).profiles.find?
        (fun q => q.personalNumber = "1234567")
      = some { personalNumber := "1234567", name := "n", email := "",
               balance := some ((0 : ℚ) + ((2 : Nat) : ℚ) * 1500) } :=
  C1_replay_credits true 9 c1u ⟨"تم, الرصيد: 1,500 الرقم الشخصي 1234567", some 100⟩ 100 c1db
    ⟨1, "1234567", some 1500, "قيد المراجعة", false, some 100⟩ ⟨"1234567", "n", "", some 0⟩
    1500 0 "1234567" rfl rfl (by decide) (by decide) (by decide) (by decide) rfl 2

/-- C7 witness: the retry theorem applied to the always-failing oracle and
the handler-independence at a concrete state. -/
theorem C7_witness :
    Poll.updateBalanceInSheet (fun _ => true) = ⟨false, [800, 1600], 3⟩
    ∧ (Poll.updateBalanceInSheet (fun _ => true)).attemptsMade ≤ 3
    ∧ Poll.genericBotReplyHandler true 0 ⟨0, none⟩ ⟨[], [], [], []⟩
        = Poll.genericBotReplyHandler false 0 ⟨0, none⟩ ⟨[], [], [], []⟩ :=
  ⟨C7_mirror_retry.1 (fun _ => true) rfl rfl rfl,
   C7_mirror_retry.2.1 (fun _ => true),
   C7_mirror_retry.2.2 true false 0 ⟨0, none⟩ ⟨[], [], [], []⟩⟩
